import Mathlib

/-!
Verification of the Sangeet model-export scripts.

The repository consists of straight-line export scripts that load a pretrained
source-separation model, trace it on one example tensor, and convert the trace
into a Core ML package.  The definitions below are shallow embeddings of the
constants and the (small amount of) branching logic found in:

  * `colab_openunmix.py`                 (Colab whole-waveform OpenUnmix export)
  * `scripts/convert_openunmix.py`       (standalone whole-waveform OpenUnmix export)
  * `scripts/convert_openunmix_spectral.py` (spectral vocals sub-model export)
  * `colab_script.py`                    (Demucs export: outer invoker plus the
                                          embedded `run_conversion.py` script)
  * `scripts/inspect_umx.py`             (shape-inspection probe)
-/

namespace Sangeet

/-- A declared dimension of a Core ML input tensor: either a plain fixed size
(an integer in the `shape=` tuple) or a `ct.RangeDim(lower_bound, upper_bound,
default)` flexible dimension. -/
inductive Dim where
  | fixed (n : Nat)
  | range (lowerBound upperBound default : Nat)
deriving DecidableEq, Repr

/-- Embeds `ct.TensorType(name=..., shape=(...))`. -/
structure TensorType where
  name : String
  shape : List Dim
deriving DecidableEq, Repr

/-- Embeds the `compute_precision` argument of `ct.convert`
(`ct.precision.FLOAT16` or `ct.precision.FLOAT32`). -/
inductive Precision where
  | float16
  | float32
deriving DecidableEq, Repr

/-- Embeds the `minimum_deployment_target` argument of `ct.convert`. -/
inductive DeployTarget where
  | macOS13
deriving DecidableEq, Repr

/-- The arguments passed to a `ct.convert(...)` call. -/
structure ConvertArgs where
  inputs : List TensorType
  convertTo : String
  computePrecision : Precision
  minimumDeploymentTarget : DeployTarget
deriving DecidableEq, Repr

/-! ### Spectral vocals sub-model export (`scripts/convert_openunmix_spectral.py`) -/

/-- Line 98: `time_dim = ct.RangeDim(lower_bound=10, upper_bound=5000, default=100)`. -/
def time_dim : Dim := Dim.range 10 5000 100

/-- Lines 100-108: the `ct.convert` call of `convert_spectral`, with
`_input = ct.TensorType(name="magnitude_spectrogram", shape=(1, 2, 2049, time_dim))`. -/
def spectralConvertArgs : ConvertArgs :=
  { inputs := [{ name := "magnitude_spectrogram"
                 shape := [Dim.fixed 1, Dim.fixed 2, Dim.fixed 2049, time_dim] }]
    convertTo := "mlprogram"
    computePrecision := Precision.float16
    minimumDeploymentTarget := DeployTarget.macOS13 }

/-- Line 92: `torch.jit.trace(vocals_model, dummy_input)` — the `check_trace`
keyword is not passed (`none`). -/
def spectralCheckTrace : Option Bool := none

/-! ### Colab whole-waveform OpenUnmix export (`colab_openunmix.py`) -/

/-- Line 37: `samples = 44100 * 10`. -/
def colabSamples : Nat := 44100 * 10

/-- Lines 45-56: the `ct.convert` call of `convert_openunmix` in
`colab_openunmix.py`, with `_input = ct.TensorType(name="audio",
shape=(1, 2, samples))`. -/
def colabOpenunmixConvertArgs : ConvertArgs :=
  { inputs := [{ name := "audio"
                 shape := [Dim.fixed 1, Dim.fixed 2, Dim.fixed colabSamples] }]
    convertTo := "mlprogram"
    computePrecision := Precision.float16
    minimumDeploymentTarget := DeployTarget.macOS13 }

/-- Line 42: `traced_model = torch.jit.trace(separator, example_input)` — the
`check_trace` keyword is not passed (`none`). -/
def colabOpenunmixCheckTrace : Option Bool := none

/-! ### Standalone whole-waveform OpenUnmix export (`scripts/convert_openunmix.py`) -/

/-- Line 30: `samples = 44100 * 3`. -/
def scriptSamples : Nat := 44100 * 3

/-- Lines 38-49: the `ct.convert` call of `convert_openunmix` in
`scripts/convert_openunmix.py`, with `_input = ct.TensorType(name="audio",
shape=(1, 2, samples))`. -/
def scriptOpenunmixConvertArgs : ConvertArgs :=
  { inputs := [{ name := "audio"
                 shape := [Dim.fixed 1, Dim.fixed 2, Dim.fixed scriptSamples] }]
    convertTo := "mlprogram"
    computePrecision := Precision.float16
    minimumDeploymentTarget := DeployTarget.macOS13 }

/-- Line 35: `torch.jit.trace(separator, example_input, check_trace=False)` —
the `check_trace` keyword is passed explicitly as `False`. -/
def scriptOpenunmixCheckTrace : Option Bool := some false

/-- The validation behaviour a `torch.jit.trace` call actually gets:
`torch.jit.trace` re-runs the trace against the original module and compares
outputs by default (`check_trace=True`); passing `check_trace=False` disables
this validation. -/
def effectiveCheckTrace (o : Option Bool) : Bool := o.getD true

/-! ### Demucs export (`colab_script.py`, embedded `run_conversion.py`) -/

/-- Line 72 of `colab_script.py`: `samples = 343980`. -/
def demucsSamples : Nat := 343980

/-- Lines 77-84: the `ct.convert` call of `run_conversion.py`, with
`_input = ct.TensorType(name="audio", shape=(1, 2, samples))`. -/
def demucsConvertArgs : ConvertArgs :=
  { inputs := [{ name := "audio"
                 shape := [Dim.fixed 1, Dim.fixed 2, Dim.fixed demucsSamples] }]
    convertTo := "mlprogram"
    computePrecision := Precision.float16
    minimumDeploymentTarget := DeployTarget.macOS13 }

/-- Line 74: `traced_model = torch.jit.trace(model, example_input)` — the
`check_trace` keyword is not passed (`none`). -/
def demucsCheckTrace : Option Bool := none

/-- The four `ct.convert` call sites in the repository, in source order:
Colab whole-waveform OpenUnmix, standalone whole-waveform OpenUnmix, spectral
vocals sub-model, Demucs. -/
def allConvertArgs : List ConvertArgs :=
  [colabOpenunmixConvertArgs, scriptOpenunmixConvertArgs,
   spectralConvertArgs, demucsConvertArgs]

/-! ### Demucs model selection and tracing target (`colab_script.py` 52-74) -/

/-- A pretrained Demucs model as returned by `get_model`: either a single
network or a `BagOfModels` holding a `.models` list. -/
inductive DemucsModel where
  | single (weightsId : Nat)
  | bag (models : List DemucsModel)

/-- Embeds `hasattr(bag_model, 'models')` (line 64): true exactly for a bag. -/
def hasModelsAttr : DemucsModel → Bool
  | DemucsModel.bag _ => true
  | DemucsModel.single _ => false

/-- The `.models` attribute of a bag (empty for a single model, which has no
such attribute). -/
def bagModels : DemucsModel → List DemucsModel
  | DemucsModel.bag ms => ms
  | DemucsModel.single _ => []

/-- Lines 64-67 of `colab_script.py`:
`model = bag_model.models[0] if hasattr(bag_model, 'models') else bag_model`.
Indexing `[0]` raises `IndexError` on an empty list, embedded as `none`. -/
def selectModel (bagModel : DemucsModel) : Option DemucsModel :=
  if hasModelsAttr bagModel then (bagModels bagModel)[0]?
  else some bagModel

/-- The keyword arguments of the `apply_model` call inside
`DemucsWrapper.forward` (line 59): `shifts=0, split=True, overlap=0.25`. -/
structure ApplyModelArgs where
  shifts : Nat
  split : Bool
  overlap : ℚ
deriving DecidableEq, Repr

/-- Line 59 of `colab_script.py`:
`apply_model(self.model, x, shifts=0, split=True, overlap=0.25, progress=False)`. -/
def demucsWrapperApplyArgs : ApplyModelArgs :=
  { shifts := 0, split := true, overlap := 0.25 }

/-- What `torch.jit.trace` could receive in `run_conversion.py`: the bare
selected model itself, or a `DemucsWrapper` around a model (whose forward runs
segmented inference via `apply_model`). -/
inductive TraceArg where
  | bare (m : DemucsModel)
  | wrapped (m : DemucsModel)

/-- Lines 61-84 of `colab_script.py` as a function of the downloaded bag model:
line 74 traces `model` — the result of the selection on lines 64-67 — directly,
and the trace is what `ct.convert` lowers into the package.  No
`DemucsWrapper(...)` construction appears anywhere in the script, so the traced
argument is always `TraceArg.bare` of the selected model. -/
def demucsConvertedModule (bagModel : DemucsModel) : Option TraceArg :=
  (selectModel bagModel).map TraceArg.bare

/-! ### Provisioning run of `run_conversion.py` (`colab_script.py` 47-89) -/

/-- An observable step of `run_conversion.py`, in program order. -/
inductive RunEvent where
  | printVersion (v : String)
  | exitStatus (code : Nat)
  | downloadDemucs
  | tracedDemucs
  | convertedDemucs
  | savedDemucs
deriving DecidableEq, Repr

/-- Embeds `numpy.__version__.startswith('2')` (line 48 of `colab_script.py`):
a string starts with the one-character prefix "2" exactly when its first
character is '2'. -/
def numpyStartsWith2 (v : String) : Bool :=
  match v.data with
  | c :: _ => c == '2'
  | [] => false

/-- Lines 47-89 of `colab_script.py` (the body of `run_conversion.py`) as a
straight-line event trace parameterised by the numpy version string the venv
reports.  The script prints the version, then runs
`if numpy.__version__.startswith('2'): sys.exit(1)`; only past that check does
it download Demucs, trace, convert and save (library calls assumed to
succeed, after which the interpreter exits with status 0). -/
def runConversionEvents (numpyVersion : String) : List RunEvent :=
  RunEvent.printVersion numpyVersion ::
    (if numpyStartsWith2 numpyVersion then
      [RunEvent.exitStatus 1]
    else
      [RunEvent.downloadDemucs, RunEvent.tracedDemucs, RunEvent.convertedDemucs,
       RunEvent.savedDemucs, RunEvent.exitStatus 0])

/-- Modelled from the spec: the spec speaks of the numeric library
"reporting a major version of 2 or greater"; the major version of a version
string is the integer formed by the digits before the first dot.  This
definition follows the spec's words and exists only to compare the spec's
predicate with the code's `startswith('2')` check. -/
def specMajorVersion (v : String) : Nat :=
  (v.data.takeWhile (fun c => c ≠ '.')).foldl
    (fun acc c => 10 * acc + (c.toNat - 48)) 0

/-! ### The invoking process (`colab_script.py` 96-108) -/

/-- What the outer Colab process does after the subprocess finishes. -/
structure InvokerOutcome where
  printedFailureDiagnostic : Bool
  exitStatus : Nat
deriving DecidableEq, Repr

/-- Lines 105-108 of `colab_script.py`: `subprocess.run(["bash", "runner.sh"],
check=True, ...)` blocks until the subprocess exits; on a non-zero subprocess
exit it raises `CalledProcessError`, which the `except` clause catches and
answers only with `print(f"Script failed with code {e.returncode}")` — after
which the invoking script falls off the end and the interpreter exits with
status 0. -/
def invokeRunner (subprocessExit : Nat) : InvokerOutcome :=
  if subprocessExit = 0 then
    { printedFailureDiagnostic := false, exitStatus := 0 }
  else
    { printedFailureDiagnostic := true, exitStatus := 0 }

/-! ### Shape-inspection probe (`scripts/inspect_umx.py` 157-170) -/

/-- A candidate input shape the probe tries. -/
abbrev Shape := List Nat

/-- What the probe prints for one candidate: either the success line with the
output shape, or the caught-failure line with the exception text. -/
inductive ProbeReport where
  | success (shape : Shape) (outputShape : Shape)
  | failure (shape : Shape) (reason : String)
deriving DecidableEq, Repr

/-- The two candidate shapes the probe tries, in order: line 157
`torch.randn(1, 2, 2049, 100)` and line 165 `torch.randn(1, 100, 2049*2)`. -/
def probeCandidates : List Shape := [[1, 2, 2049, 100], [1, 100, 2049 * 2]]

/-- Lines 157-170 of `scripts/inspect_umx.py`: each candidate shape is fed to
`vocals(...)` inside its own `try` block; success prints the output shape,
any exception is caught and its text printed, and control falls through to the
next candidate either way.  The behaviour of the loaded vocals model is the
parameter `vocals` (it lives in the openunmix library, outside this
repository). -/
def probeRun (vocals : Shape → Except String Shape) : List ProbeReport :=
  probeCandidates.map (fun s =>
    match vocals s with
    | Except.ok out => ProbeReport.success s out
    | Except.error e => ProbeReport.failure s e)

/-- A concrete stand-in for the vocals model used to instantiate the probe
theorem: accepts exactly the (batch, channel, frequency, time) layout. -/
def probeOracle : Shape → Except String Shape := fun s =>
  if s = [1, 2, 2049, 100] then Except.ok [1, 2, 2049, 100]
  else Except.error "mat1 and mat2 shapes cannot be multiplied"

/-! ## Claims -/

/-- Claim C1: the spectral sub-model export declares exactly one input tensor,
named "magnitude_spectrogram", of shape (1, 2, 2049, T), where the time-frame
axis T is a bounded flexible range with lower bound 10, upper bound 5000 and
default 100, while the batch, channel and frequency-bin axes are fixed. -/
theorem spectral_declares_single_ranged_input :
    spectralConvertArgs.inputs =
      [{ name := "magnitude_spectrogram"
         shape := [Dim.fixed 1, Dim.fixed 2, Dim.fixed 2049,
                   Dim.range 10 5000 100] }] := by
  decide

/-- Claim C2: the Colab whole-waveform export declares exactly one input
tensor, named "audio", of the fixed shape (1, 2, 441000), where
441000 = 44100 * 10 samples. -/
theorem colab_declares_audio_441000 :
    colabOpenunmixConvertArgs.inputs =
      [{ name := "audio"
         shape := [Dim.fixed 1, Dim.fixed 2, Dim.fixed 441000] }] ∧
    colabSamples = 441000 := by
  decide

/-- Claim C3, counterexample: a numpy version "3.0.0" reports a major version
of 3, which is 2 or greater, yet `run_conversion.py` does not abort — model
work (the Demucs download) happens and no non-zero exit occurs, because the
code only tests `startswith('2')`. -/
theorem numpy_check_misses_major_three :
    2 ≤ specMajorVersion "3.0.0" ∧
    RunEvent.downloadDemucs ∈ runConversionEvents "3.0.0" ∧
    RunEvent.exitStatus 1 ∉ runConversionEvents "3.0.0" := by
  decide

/-- Claim C3, amended: the provisioning run's numpy check rejects any
environment whose reported version string starts with "2" (in particular every
2.x major version), printing the version and aborting with exit status 1
before any model work begins. -/
theorem numpy_check_rejects_2x (v : String) (h : numpyStartsWith2 v = true) :
    runConversionEvents v = [RunEvent.printVersion v, RunEvent.exitStatus 1] ∧
    RunEvent.downloadDemucs ∉ runConversionEvents v := by
  simp [runConversionEvents, h]

/-- Claim C3, witness: the amended theorem instantiated at version "2.1.2". -/
theorem numpy_check_rejects_2x_witness :
    numpyStartsWith2 "2.1.2" = true ∧
    (runConversionEvents "2.1.2" =
      [RunEvent.printVersion "2.1.2", RunEvent.exitStatus 1] ∧
     RunEvent.downloadDemucs ∉ runConversionEvents "2.1.2") :=
  ⟨by decide, numpy_check_rejects_2x "2.1.2" (by decide)⟩

/-- Claim C4, counterexample: when the provisioning subprocess exits with
status 1, the invoking process prints a diagnostic but itself exits with
status 0 — it does not propagate the subprocess's non-zero exit status. -/
theorem invoker_swallows_failure :
    (invokeRunner 1).printedFailureDiagnostic = true ∧
    (invokeRunner 1).exitStatus = 0 ∧
    (invokeRunner 1).exitStatus ≠ 1 := by
  decide

/-- Claim C4, amended: the invoking process blocks until the subprocess exits;
on any non-zero subprocess exit it prints a failure diagnostic naming the
subprocess's exit code, but the invoking process itself then exits with
status 0 rather than propagating the non-zero status. -/
theorem invoker_prints_but_exits_zero (code : Nat) (h : code ≠ 0) :
    (invokeRunner code).printedFailureDiagnostic = true ∧
    (invokeRunner code).exitStatus = 0 := by
  simp [invokeRunner, h]

/-- Claim C4, witness: the amended theorem instantiated at subprocess exit
status 7. -/
theorem invoker_prints_but_exits_zero_witness :
    (7 : Nat) ≠ 0 ∧
    ((invokeRunner 7).printedFailureDiagnostic = true ∧
     (invokeRunner 7).exitStatus = 0) :=
  ⟨by decide, invoker_prints_but_exits_zero 7 (by decide)⟩

/-- Claim C5, counterexample: the Colab whole-waveform OpenUnmix export — a
model containing iterative Wiener filtering (niter=1) — calls
`torch.jit.trace` without the `check_trace` keyword, so trace validation stays
enabled there; the claim that every such export disables validation is
false. -/
theorem colab_trace_validation_enabled :
    colabOpenunmixCheckTrace ≠ some false ∧
    effectiveCheckTrace colabOpenunmixCheckTrace = true := by
  decide

/-- Claim C5, amended: only the standalone whole-waveform OpenUnmix export
disables the automatic trace validation, by passing `check_trace=False`
explicitly; the Colab whole-waveform export omits the keyword, so validation
remains enabled for it. -/
theorem checkTrace_disabled_only_in_standalone :
    scriptOpenunmixCheckTrace = some false ∧
    effectiveCheckTrace scriptOpenunmixCheckTrace = false ∧
    effectiveCheckTrace colabOpenunmixCheckTrace = true := by
  decide

/-- Claim C6: every `ct.convert` call in the repository — Colab whole-waveform
OpenUnmix, standalone whole-waveform OpenUnmix, spectral vocals sub-model and
Demucs — passes `compute_precision=ct.precision.FLOAT16`, so every produced
package is declared half precision. -/
theorem all_conversions_float16 :
    ∀ c ∈ allConvertArgs, c.computePrecision = Precision.float16 := by
  decide

/-- Claim C6, witness: the Demucs conversion is in the list of conversions and
is half precision. -/
theorem all_conversions_float16_witness :
    demucsConvertArgs ∈ allConvertArgs ∧
    demucsConvertArgs.computePrecision = Precision.float16 :=
  ⟨by decide, all_conversions_float16 demucsConvertArgs (by decide)⟩

/-- Claim C7: when the loaded pretrained model is a bag of models, the loader
selects exactly the first constituent model of the bag; when it is not a bag,
the loaded model itself is used. -/
theorem selectModel_first_of_bag :
    (∀ (m : DemucsModel) (rest : List DemucsModel),
        selectModel (DemucsModel.bag (m :: rest)) = some m) ∧
    (∀ (w : Nat),
        selectModel (DemucsModel.single w) = some (DemucsModel.single w)) := by
  refine ⟨fun m rest => ?_, fun w => rfl⟩
  simp [selectModel, hasModelsAttr, bagModels]

/-- Claim C8: the shape-inspection probe produces one report per candidate
shape (it never crashes and never skips a candidate); for each candidate, if
the model succeeds the report is the success line with the candidate shape and
the output shape, and if the model raises, the exception is caught and the
report is the failure line with the candidate shape and the failure reason. -/
theorem probe_reports (vocals : Shape → Except String Shape) :
    (probeRun vocals).length = probeCandidates.length ∧
    ∀ (i : Nat) (s : Shape), probeCandidates[i]? = some s →
      (∀ out, vocals s = Except.ok out →
          (probeRun vocals)[i]? = some (ProbeReport.success s out)) ∧
      (∀ e, vocals s = Except.error e →
          (probeRun vocals)[i]? = some (ProbeReport.failure s e)) := by
  constructor
  · simp [probeRun]
  · intro i s hs
    match i with
    | 0 =>
        simp [probeCandidates] at hs
        subst hs
        exact ⟨fun out hout => by simp [probeRun, probeCandidates, hout],
               fun e he => by simp [probeRun, probeCandidates, he]⟩
    | 1 =>
        simp [probeCandidates] at hs
        subst hs
        exact ⟨fun out hout => by simp [probeRun, probeCandidates, hout],
               fun e he => by simp [probeRun, probeCandidates, he]⟩
    | (n + 2) =>
        simp [probeCandidates] at hs

/-- Claim C8, witness: the probe theorem instantiated with a concrete vocals
model that accepts the (1, 2, 2049, 100) layout and rejects the flattened
(1, 100, 4098) layout — the valid shape yields a success report and the
invalid shape yields a caught-failure report. -/
theorem probe_reports_witness :
    (probeRun probeOracle)[0]? =
      some (ProbeReport.success [1, 2, 2049, 100] [1, 2, 2049, 100]) ∧
    (probeRun probeOracle)[1]? =
      some (ProbeReport.failure [1, 100, 2049 * 2]
        "mat1 and mat2 shapes cannot be multiplied") :=
  ⟨((probe_reports probeOracle).2 0 [1, 2, 2049, 100] rfl).1
      [1, 2, 2049, 100] rfl,
   ((probe_reports probeOracle).2 1 [1, 100, 2049 * 2] rfl).2
      "mat1 and mat2 shapes cannot be multiplied" rfl⟩

/-- Claim C9: in the Demucs export, the module that is traced and converted is
always the bare selected model (the first constituent of the bag); no
`DemucsWrapper` — whose forward would run `apply_model` with shifts=0,
split=True, overlap=1/4 — ever reaches the trace, so the converted package
contains none of that segmented-inference behaviour. -/
theorem demucs_traces_bare_first_model :
    (∀ (bagModel m : DemucsModel), selectModel bagModel = some m →
        demucsConvertedModule bagModel = some (TraceArg.bare m)) ∧
    (∀ (bagModel w : DemucsModel),
        demucsConvertedModule bagModel ≠ some (TraceArg.wrapped w)) ∧
    demucsWrapperApplyArgs.shifts = 0 ∧
    demucsWrapperApplyArgs.split = true ∧
    demucsWrapperApplyArgs.overlap = 1 / 4 := by
  refine ⟨?_, ?_, rfl, rfl, ?_⟩
  · intro bagModel m h
    simp [demucsConvertedModule, h]
  · intro bagModel w h
    cases hsel : selectModel bagModel with
    | none => simp [demucsConvertedModule, hsel] at h
    | some m => simp [demucsConvertedModule, hsel] at h
  · norm_num [demucsWrapperApplyArgs]

/-- Claim C9, witness: for a concrete two-model bag, the selection picks the
first model and the converted module is that bare model. -/
theorem demucs_traces_bare_first_model_witness :
    selectModel (DemucsModel.bag [DemucsModel.single 0, DemucsModel.single 1]) =
      some (DemucsModel.single 0) ∧
    demucsConvertedModule
        (DemucsModel.bag [DemucsModel.single 0, DemucsModel.single 1]) =
      some (TraceArg.bare (DemucsModel.single 0)) :=
  ⟨rfl, demucs_traces_bare_first_model.1 _ _ rfl⟩

/-- Claim C10: the standalone whole-waveform OpenUnmix export declares a
single input tensor "audio" with the fixed shape (1, 2, 132300), where
132300 = 44100 * 3 samples — a different fixed time length than the Colab
variant's (1, 2, 441000). -/
theorem script_declares_audio_132300 :
    scriptOpenunmixConvertArgs.inputs =
      [{ name := "audio"
         shape := [Dim.fixed 1, Dim.fixed 2, Dim.fixed 132300] }] ∧
    scriptSamples = 132300 ∧
    scriptOpenunmixConvertArgs.inputs ≠ colabOpenunmixConvertArgs.inputs := by
  decide

end Sangeet
